import Mathlib

/-!
Verification of the CineMatch content-based recommender
(`backend/ml/recommender.py`) against its natural-language specification.

The recommender is embedded shallowly: Python floats become an inductive
type `PyFloat` with the IEEE special values made explicit, JSON metadata
records become the structure `Movie`, and every function of the pipeline
(`build_user_profile`, `compute_preference_alignment`,
`filter_by_year_bucket`, `filter_by_runtime_bucket`,
`ensure_genre_coverage`, `diversify_by_genre`, `recommend`,
`sanitize_for_json`) is translated into an executable Lean definition.
The cosine-similarity call into scikit-learn is external to the
repository, so `recommend` takes the raw similarity vector as an input
parameter; everything downstream of that call is modelled from the source.
-/

namespace CineMatch

/-- Value of a Python float: a finite rational or one of the IEEE special
values.  Exact rational arithmetic stands in for binary floating point;
the claims under study concern only the handling of the non-finite
values, which this type keeps explicit. -/
inductive PyFloat where
  | finite (q : ℚ)
  | nan
  | inf
  | neginf
deriving DecidableEq, Repr

/-- Counterpart of `np.isfinite` on a single value. -/
def PyFloat.isFinite : PyFloat → Bool
  | .finite _ => true
  | _ => false

/-- Rational value of a float, with the non-finite values collapsed to 0.
Used only where the argument is provably finite (sort keys). -/
def PyFloat.toRat : PyFloat → ℚ
  | .finite q => q
  | _ => 0

/-- IEEE addition on `PyFloat`: NaN is absorbing, opposite infinities
give NaN. -/
def pyAdd : PyFloat → PyFloat → PyFloat
  | .finite a, .finite b => .finite (a + b)
  | .nan, _ => .nan
  | _, .nan => .nan
  | .inf, .neginf => .nan
  | .neginf, .inf => .nan
  | .inf, _ => .inf
  | _, .inf => .inf
  | .neginf, _ => .neginf
  | _, .neginf => .neginf

/-- IEEE multiplication on `PyFloat`: NaN is absorbing, infinity times
zero gives NaN, otherwise signs propagate. -/
def pyMul : PyFloat → PyFloat → PyFloat
  | .finite a, .finite b => .finite (a * b)
  | .nan, _ => .nan
  | _, .nan => .nan
  | .inf, .finite b => if 0 < b then .inf else if b < 0 then .neginf else .nan
  | .finite a, .inf => if 0 < a then .inf else if a < 0 then .neginf else .nan
  | .neginf, .finite b => if 0 < b then .neginf else if b < 0 then .inf else .nan
  | .finite a, .neginf => if 0 < a then .neginf else if a < 0 then .inf else .nan
  | .inf, .inf => .inf
  | .inf, .neginf => .neginf
  | .neginf, .inf => .neginf
  | .neginf, .neginf => .inf

/-- IEEE comparison `x <= y`: any comparison with NaN is false. -/
def pyLe : PyFloat → PyFloat → Bool
  | .finite a, .finite b => a ≤ b
  | .nan, _ => false
  | _, .nan => false
  | .neginf, _ => true
  | _, .inf => true
  | .inf, _ => false
  | .finite _, .neginf => false

/-- IEEE comparison `x < y`: any comparison with NaN is false. -/
def pyLt : PyFloat → PyFloat → Bool
  | .finite a, .finite b => a < b
  | .nan, _ => false
  | _, .nan => false
  | .inf, _ => false
  | _, .neginf => false
  | .neginf, _ => true
  | .finite _, .inf => true

/-- Scalar counterpart of `np.nan_to_num(x, nan=nanv, posinf=posv,
neginf=negv)`. -/
def nanToNum (x : PyFloat) (nanv posv negv : ℚ) : ℚ :=
  match x with
  | .finite q => q
  | .nan => nanv
  | .inf => posv
  | .neginf => negv

/-- Python truthiness of an optional float field (`if not year`): `None`
and `0` are falsy, NaN and the infinities are truthy. -/
def pyTruthy : Option PyFloat → Bool
  | none => false
  | some (.finite q) => q ≠ 0
  | some _ => true

/-- Python `int(x)` on a finite float value: truncation toward zero. -/
def pyInt (q : ℚ) : Int :=
  if 0 ≤ q then q.floor else q.ceil

/-- State of a JSON object field: the key may be absent, be present with
value `null`, or carry a number.  Needed because `dict.get(key, default)`
distinguishes an absent key from a `null` one. -/
inductive JField where
  | absent
  | null
  | val (q : ℚ)
deriving DecidableEq, Repr

/-- Counterpart of `movie.get(key, default)` for a numeric field, where
the default is itself an optional number. -/
def JField.getOr : JField → Option ℚ → Option ℚ
  | .absent, d => d
  | .null, _ => none
  | .val q, _ => some q

/-- One entry of `movies_meta`.  `year` and `runtime` collapse an absent
key and a JSON `null` into `none`, which is exactly how `dict.get` with
no default presents them; `popularity` and `vote_count` keep the
three-way distinction because `_compute_normalized_popularity` reads
them through `dict.get` with a fallback default. -/
structure Movie where
  movieId : Int
  title : String
  genres : String
  services : String
  year : Option PyFloat
  runtime : Option PyFloat
  original_language : String
  overview : String
  poster_path : Option String
  popularity : JField
  vote_count : JField
deriving DecidableEq, Repr

/-- Placeholder record used for out-of-range index lookups; the pipeline
only ever looks up indices produced by `argsort` over the catalog, so it
is never observed on well-formed inputs. -/
def defaultMovie : Movie :=
  { movieId := -1, title := "", genres := "", services := "",
    year := none, runtime := none, original_language := "",
    overview := "", poster_path := none,
    popularity := .absent, vote_count := .absent }

/-- The `UserPreferences` dataclass after `__post_init__`: every list
field has been defaulted to the empty list. -/
structure UserPreferences where
  liked_movie_ids : List Int := []
  disliked_movie_ids : List Int := []
  not_interested_ids : List Int := []
  preferred_genres : List String := []
  services : List String := []
  runtime_min : Option Int := none
  runtime_max : Option Int := none
  languages : List String := []
deriving DecidableEq, Repr

/-- The immutable catalog snapshot loaded by the recommender at startup:
movie metadata, the dense feature matrix (one row per movie), the genre
vocabulary of the multi-label binarizer, the width of the TF-IDF block
inside a feature row, and the total feature dimensionality. -/
structure Catalog where
  movies_meta : List Movie
  item_features : List (List ℚ)
  genre_classes : List String
  tfidf_size : ℕ
  dim : ℕ
deriving DecidableEq, Repr

/-- Catalog lookup `movies_meta[idx]` with a default for out-of-range
indices. -/
def movieAt (c : Catalog) (idx : ℕ) : Movie :=
  c.movies_meta.getD idx defaultMovie

/-- Translation of `filter_by_year_bucket`: a falsy `year` rejects the
movie, otherwise the bucket name selects a comparison on the year value
(an unknown bucket name accepts everything). -/
def filter_by_year_bucket (movie : Movie) (year_bucket : String) : Bool :=
  if ¬ pyTruthy movie.year then false
  else
    let y := movie.year.getD .nan
    if year_bucket = "recent" then pyLe (.finite 2018) y
    else if year_bucket = "2010s" then pyLe (.finite 2010) y && pyLe y (.finite 2019)
    else if year_bucket = "2000s" then pyLe (.finite 2000) y && pyLe y (.finite 2009)
    else if year_bucket = "90s" then pyLe (.finite 1990) y && pyLe y (.finite 1999)
    else if year_bucket = "classic" then pyLt y (.finite 1990)
    else true

/-- Translation of `filter_by_runtime_bucket`: a falsy `runtime` rejects
the movie, otherwise the bucket name selects a comparison on the runtime
value (an unknown bucket name accepts everything). -/
def filter_by_runtime_bucket (movie : Movie) (runtime_bucket : String) : Bool :=
  if ¬ pyTruthy movie.runtime then false
  else
    let r := movie.runtime.getD .nan
    if runtime_bucket = "short" then pyLt r (.finite 90)
    else if runtime_bucket = "medium" then pyLe (.finite 90) r && pyLe r (.finite 150)
    else if runtime_bucket = "long" then pyLt (.finite 150) r
    else true

/-- The five year bucket names recognised by `filter_by_year_bucket`. -/
def yearBucketNames : List String := ["recent", "2010s", "2000s", "90s", "classic"]

/-- The three runtime bucket names recognised by
`filter_by_runtime_bucket`. -/
def runtimeBucketNames : List String := ["short", "medium", "long"]

/-- A movie record whose only populated numeric field is an integral
year, used to probe the year bucket predicate. -/
def movieWithYear (y : Int) : Movie :=
  { defaultMovie with year := some (.finite (y : ℚ)) }

/-- A movie record whose only populated numeric field is the runtime,
used to probe the runtime bucket predicate. -/
def movieWithRuntime (r : ℚ) : Movie :=
  { defaultMovie with runtime := some (.finite r) }

/-- Number of year buckets accepting a given integral year. -/
def yearBucketCount (y : Int) : ℕ :=
  (yearBucketNames.filter (fun b => filter_by_year_bucket (movieWithYear y) b)).length

/-- Number of runtime buckets accepting a given runtime. -/
def runtimeBucketCount (r : ℚ) : ℕ :=
  (runtimeBucketNames.filter (fun b => filter_by_runtime_bucket (movieWithRuntime r) b)).length

/-- Lower-cased genre set of a movie, as built by
`compute_preference_alignment`: the pipe-separated `genres` string is
split, empty entries are dropped, and the remainder is lower-cased. -/
def movieGenreSet (movie : Movie) : Finset String :=
  (((movie.genres.splitOn "|").filter (fun g => g ≠ "")).map String.toLower).toFinset

/-- Lower-cased preferred-genre set of a user. -/
def prefGenreSet (prefs : UserPreferences) : Finset String :=
  (prefs.preferred_genres.map String.toLower).toFinset

/-- Service set of a movie: the pipe-separated `services` string split,
with no lower-casing and no empty-entry filtering, exactly as in the
source. -/
def movieServiceSet (movie : Movie) : Finset String :=
  (movie.services.splitOn "|").toFinset

/-- Preferred-service set of a user. -/
def prefServiceSet (prefs : UserPreferences) : Finset String :=
  prefs.services.toFinset

/-- Translation of `compute_preference_alignment`: the alignment
accumulator starts at 0, the four guarded contributions are added in
source order (genre overlap 0.5, service match 0.25, runtime match 0.15
with half weight 0.075 for a missing or non-finite runtime, language
match 0.10), and the result is clamped to the unit interval. -/
def compute_preference_alignment (movie : Movie) (prefs : UserPreferences) : ℚ :=
  let alignment : ℚ := 0
  let alignment :=
    if prefs.preferred_genres ≠ [] then
      if (movieGenreSet movie).Nonempty ∧ (prefGenreSet prefs).Nonempty then
        let intersection : ℚ := ((movieGenreSet movie ∩ prefGenreSet prefs).card : ℚ)
        let union : ℚ := ((movieGenreSet movie ∪ prefGenreSet prefs).card : ℚ)
        let genre_score := if 0 < union then intersection / union else 0
        alignment + 0.5 * genre_score
      else alignment
    else alignment
  let alignment :=
    if prefs.services ≠ [] then
      if (movieServiceSet movie ∩ prefServiceSet prefs).Nonempty then alignment + 0.25
      else alignment
    else alignment
  let alignment :=
    match movie.runtime with
    | some (.finite r) =>
        let in_range :=
          if prefs.runtime_min.isSome ∧ r < ((prefs.runtime_min.getD 0 : Int) : ℚ) then false
          else if prefs.runtime_max.isSome ∧ ((prefs.runtime_max.getD 0 : Int) : ℚ) < r then false
          else true
        if in_range then alignment + 0.15 else alignment
    | _ => alignment + 0.075
  let alignment :=
    if prefs.languages ≠ [] then
      if movie.original_language.toLower ∈ prefs.languages.map String.toLower
      then alignment + 0.10 else alignment
    else alignment
  min 1 (max 0 alignment)

/-- Jaccard overlap between the genre set of a movie and the preferred
genres, 0 when the preferred set is empty, as the specification words
it. -/
def genreJaccard (movie : Movie) (prefs : UserPreferences) : ℚ :=
  if prefGenreSet prefs = ∅ then 0
  else ((movieGenreSet movie ∩ prefGenreSet prefs).card : ℚ)
        / ((movieGenreSet movie ∪ prefGenreSet prefs).card : ℚ)

/-- Whether a finite runtime satisfies the runtime bounds of the user;
an unset bound imposes no constraint. -/
def runtimeInBounds (prefs : UserPreferences) (r : ℚ) : Bool :=
  (match prefs.runtime_min with | some mn => decide ((mn : ℚ) ≤ r) | none => true) &&
  (match prefs.runtime_max with | some mx => decide (r ≤ (mx : ℚ)) | none => true)

/-- The alignment score as the specification words it: a clamped sum of
four independent sub-scores with weights 0.5, 0.25, 0.15 (half weight
0.075 for a missing or non-finite runtime) and 0.10. -/
def alignmentSpec (movie : Movie) (prefs : UserPreferences) : ℚ :=
  let genre_part := 0.5 * genreJaccard movie prefs
  let service_part : ℚ :=
    if (movieServiceSet movie ∩ prefServiceSet prefs).Nonempty then 0.25 else 0
  let runtime_part : ℚ :=
    match movie.runtime with
    | some (.finite r) => if runtimeInBounds prefs r then 0.15 else 0
    | _ => 0.075
  let language_part : ℚ :=
    if movie.original_language.toLower ∈ prefs.languages.map String.toLower then 0.10 else 0
  min 1 (max 0 (genre_part + service_part + runtime_part + language_part))

/-- Elementwise vector sum; the dense feature rows all share the
catalog dimensionality, and `zipWith` realises the elementwise `+`. -/
def vecAdd (u v : List ℚ) : List ℚ := List.zipWith (· + ·) u v

/-- Scalar multiple of a vector. -/
def vecSmul (a : ℚ) (v : List ℚ) : List ℚ := v.map (fun x => a * x)

/-- Elementwise mean of a list of feature rows (`matrix.mean(axis=0)`). -/
def vecMean : List (List ℚ) → List ℚ
  | [] => []
  | r :: rs => vecSmul (1 / (1 + rs.length : ℚ)) (rs.foldl vecAdd r)

/-- Feature row of a movie index. -/
def featRow (c : Catalog) (i : ℕ) : List ℚ := c.item_features.getD i []

/-- The `movie_id_to_idx` mapping built at load time; for a duplicated
id the dict comprehension keeps the last index. -/
def movie_id_to_idx (c : Catalog) (mid : Int) : Option ℕ :=
  ((List.range c.movies_meta.length).filter (fun i => (movieAt c i).movieId = mid)).getLast?

/-- Indices of the liked movies that resolve in the catalog; liked ids
absent from the catalog are dropped by the comprehension filter. -/
def resolvedLikedIndices (c : Catalog) (prefs : UserPreferences) : List ℕ :=
  prefs.liked_movie_ids.filterMap (movie_id_to_idx c)

/-- Positions in the genre vocabulary that match a preferred genre
case-insensitively. -/
def genreBoostIndices (c : Catalog) (prefs : UserPreferences) : List ℕ :=
  (List.range c.genre_classes.length).filter
    (fun i => (c.genre_classes.getD i "").toLower ∈ prefs.preferred_genres.map String.toLower)

/-- The genre boost vector: zeros except value 1 at feature position
`tfidf_size + i` for each matched genre index `i`. -/
def genreBoostVec (c : Catalog) (gidx : List ℕ) : List ℚ :=
  (List.range c.dim).map (fun j => if gidx.any (fun i => c.tfidf_size + i = j) then 1 else 0)

/-- Mean feature vector of the entire catalog. -/
def catalogMeanVec (c : Catalog) : List ℚ := vecMean c.item_features

/-- Translation of `build_user_profile`: a base profile from the liked
movies when any resolve, a genre boost when any preferred genre matches
the vocabulary, combined by the fixed 0.8/0.2 blend, with the catalog
mean as the cold-start fallback. -/
def build_user_profile (c : Catalog) (prefs : UserPreferences) : List ℚ :=
  let user_profile : Option (List ℚ) :=
    if prefs.liked_movie_ids ≠ [] then
      let liked_indices := resolvedLikedIndices c prefs
      if liked_indices ≠ [] then some (vecMean (liked_indices.map (featRow c))) else none
    else none
  let genre_boost_profile : Option (List ℚ) :=
    if prefs.preferred_genres ≠ [] then
      let genre_indices := genreBoostIndices c prefs
      if genre_indices ≠ [] then some (genreBoostVec c genre_indices) else none
    else none
  match user_profile, genre_boost_profile with
  | some u, some g => vecAdd (vecSmul 0.8 u) (vecSmul 0.2 g)
  | none, some g => g
  | none, none => catalogMeanVec c
  | some u, none => u

/-- The profile construction as the specification words it: the fixed
blend rule applied to the optional base profile and the optional genre
boost, with the catalog mean when neither exists. -/
def buildUserProfileSpec (c : Catalog) (prefs : UserPreferences) : List ℚ :=
  let base :=
    if resolvedLikedIndices c prefs = [] then none
    else some (vecMean ((resolvedLikedIndices c prefs).map (featRow c)))
  let boost :=
    if genreBoostIndices c prefs = [] then none
    else some (genreBoostVec c (genreBoostIndices c prefs))
  match base, boost with
  | some b, some g => vecAdd (vecSmul 0.8 b) (vecSmul 0.2 g)
  | some b, none => b
  | none, some g => g
  | none, none => catalogMeanVec c

/-- First movie of the concrete witness catalog. -/
def movieA : Movie :=
  { movieId := 1, title := "A", genres := "Action", services := "N",
    year := some (.finite 2020), runtime := some (.finite 100),
    original_language := "en", overview := "", poster_path := none,
    popularity := .val 5, vote_count := .val 10 }

/-- Second movie of the concrete witness catalog. -/
def movieB : Movie :=
  { movieId := 2, title := "B", genres := "Comedy", services := "N",
    year := some (.finite 2010), runtime := some (.finite 95),
    original_language := "en", overview := "", poster_path := none,
    popularity := .val 3, vote_count := .val 8 }

/-- Third movie of the concrete witness catalog. -/
def movieC : Movie :=
  { movieId := 3, title := "C", genres := "Action|Comedy", services := "H",
    year := some (.finite 1995), runtime := some (.finite 130),
    original_language := "fr", overview := "", poster_path := none,
    popularity := .val 9, vote_count := .val 22 }

/-- A small concrete catalog used by the witnesses. -/
def witCatalog : Catalog :=
  { movies_meta := [movieA, movieB, movieC],
    item_features := [[1, 0], [0, 1], [1, 1]],
    genre_classes := ["Action", "Comedy"],
    tfidf_size := 0, dim := 2 }

/-- Concrete preferences used by the witnesses. -/
def witPrefs : UserPreferences :=
  { liked_movie_ids := [1], preferred_genres := ["Comedy"] }

/-- The similarity sanitization step of `recommend`:
`np.nan_to_num(similarities, nan=0.0, posinf=1.0, neginf=0.0)` applied
to one raw cosine-similarity value. -/
def sanitizeSimilarity (s : PyFloat) : ℚ := nanToNum s 0 1 0

/-- Resolved popularity signal of one movie:
`movie.get('popularity', movie.get('vote_count', 0))` followed by the
`None`-to-0 replacement. -/
def popSignalValue (m : Movie) : ℚ :=
  (m.popularity.getOr (m.vote_count.getOr (some 0))).getD 0

/-- Minimum of a list of rationals (`array.min()`), 0 on the empty
catalog. -/
def listMin : List ℚ → ℚ
  | [] => 0
  | x :: xs => xs.foldl min x

/-- Maximum of a list of rationals (`array.max()`), 0 on the empty
catalog. -/
def listMax : List ℚ → ℚ
  | [] => 0
  | x :: xs => xs.foldl max x

/-- Translation of `_compute_normalized_popularity`: min-max
normalisation of the popularity signal (neutral 0.5 when the signal is
constant), plus the clipped recency boost, re-normalised when spread
remains.  The popularity values are modelled as exact rationals, so the
interior `nan_to_num` pass is the identity. -/
def compute_normalized_popularity (c : Catalog) : List ℚ :=
  let popularity_values := c.movies_meta.map popSignalValue
  let min_pop := listMin popularity_values
  let max_pop := listMax popularity_values
  let normalized :=
    if min_pop < max_pop
    then popularity_values.map (fun p => (p - min_pop) / (max_pop - min_pop))
    else popularity_values.map (fun _ => (0.5 : ℚ))
  let years := c.movies_meta.map (fun m =>
    match m.year with
    | some (.finite q) => q
    | _ => (2000 : ℚ))
  let recency_boost := years.map (fun y => min 1 (max 0 ((y - 1980) / (2024 - 1980))) * 0.2)
  let popularity := List.zipWith (· + ·) normalized recency_boost
  let min2 := listMin popularity
  let max2 := listMax popularity
  if min2 < max2 then popularity.map (fun p => (p - min2) / (max2 - min2)) else popularity

/-- One step of the fixed linear congruential generator standing in for
the seeded numpy generator; the claims depend only on the noise source
being a fixed deterministic function of the seed with values in the
unit interval. -/
def lcgNext (s : ℕ) : ℕ := (1664525 * s + 1013904223) % 4294967296

/-- Counterpart of `np.random.seed(seed)`: the generator state is
replaced by a state derived from the seed alone, the previous state
being discarded. -/
def npSeed (seed : ℕ) (_prev : ℕ) : ℕ := seed % 4294967296

/-- Counterpart of `np.random.random(n)` from a generator state: a list
of n pseudo-random rationals in the unit interval. -/
def genNoise : ℕ → ℕ → List ℚ
  | _, 0 => []
  | s, n + 1 => ((lcgNext s : ℚ) / 4294967296) :: genNoise (lcgNext s) n

/-- Mode-dependent scoring weights
(similarity, alignment, popularity, noise). -/
def modeWeights (mode : String) : ℚ × ℚ × ℚ × ℚ :=
  if mode = "because_liked" then (0.65, 0.25, 0.08, 0.02)
  else if mode = "trending" then (0.50, 0.25, 0.23, 0.02)
  else if mode = "genre" ∨ mode = "service" then (0.50, 0.40, 0.08, 0.02)
  else (0.60, 0.30, 0.08, 0.02)

/-- Weighted combination of the four per-item signals, carried out in
float arithmetic as in the source array expression. -/
def combineOne (w : ℚ × ℚ × ℚ × ℚ) (sim align pop noise : ℚ) : PyFloat :=
  pyAdd
    (pyAdd
      (pyAdd (pyMul (.finite w.1) (.finite sim)) (pyMul (.finite w.2.1) (.finite align)))
      (pyMul (.finite w.2.2.1) (.finite pop)))
    (pyMul (.finite w.2.2.2) (.finite noise))

/-- The per-item combined scores of `recommend`: sanitized similarity,
preference alignment, cached popularity and tie-break noise, combined
with the mode weights. -/
def combinedScores (c : Catalog) (rawSims : List PyFloat) (prefs : UserPreferences)
    (mode : String) (noise : List ℚ) : List PyFloat :=
  let sims := rawSims.map sanitizeSimilarity
  let aligns := c.movies_meta.map (fun m => compute_preference_alignment m prefs)
  let pops := compute_normalized_popularity c
  let w := modeWeights mode
  List.zipWith (fun (sa : ℚ × ℚ) (pn : ℚ × ℚ) => combineOne w sa.1 sa.2 pn.1 pn.2)
    (sims.zip aligns) (pops.zip noise)

/-- Comparison modelling `np.argsort(scores)[::-1]`: indices ordered by
descending score, ties broken by descending index (the reversal of a
stable ascending sort). -/
def descBefore (scores : List ℚ) (i j : ℕ) : Bool :=
  decide (scores.getD j 0 < scores.getD i 0) ||
    (decide (scores.getD i 0 = scores.getD j 0) && decide (j ≤ i))

/-- Ordered insertion for the ranking sort. -/
def insertRanked (le : ℕ → ℕ → Bool) (x : ℕ) : List ℕ → List ℕ
  | [] => [x]
  | y :: ys => if le x y then x :: y :: ys else y :: insertRanked le x ys

/-- Insertion sort of an index list. -/
def sortRanked (le : ℕ → ℕ → Bool) : List ℕ → List ℕ
  | [] => []
  | x :: xs => insertRanked le x (sortRanked le xs)

/-- Index list of the catalog sorted by descending score. -/
def argsortDescend (scores : List ℚ) : List ℕ :=
  sortRanked (descBefore scores) (List.range scores.length)

/-- Python truthiness of an optional string parameter: `None` and the
empty string are falsy. -/
def strTruthy : Option String → Bool
  | none => false
  | some s => s ≠ ""

/-- The per-candidate filter of `recommend`: the three exclusion lists
always apply; the genre, service, year and runtime hard filters apply
only when the mode requests them and the corresponding parameter is
truthy. -/
def candidatePass (c : Catalog) (prefs : UserPreferences) (mode : String)
    (filter_genre filter_service filter_year_bucket filter_runtime_bucket : Option String)
    (idx : ℕ) : Bool :=
  let movie := movieAt c idx
  if movie.movieId ∈ prefs.not_interested_ids then false
  else if movie.movieId ∈ prefs.liked_movie_ids then false
  else if movie.movieId ∈ prefs.disliked_movie_ids then false
  else if mode = "genre" ∧ strTruthy filter_genre
      ∧ (filter_genre.getD "").toLower ∉ (movie.genres.splitOn "|").map String.toLower
    then false
  else if mode = "service" ∧ strTruthy filter_service
      ∧ (filter_service.getD "") ∉ movie.services.splitOn "|"
    then false
  else if mode = "year" ∧ strTruthy filter_year_bucket
      ∧ filter_by_year_bucket movie (filter_year_bucket.getD "") = false
    then false
  else if mode = "runtime" ∧ strTruthy filter_runtime_bucket
      ∧ filter_by_runtime_bucket movie (filter_runtime_bucket.getD "") = false
    then false
  else true

/-- The candidate-collection loop of `recommend`: passing indices are
appended in rank order and the loop breaks once `limit` candidates have
been collected. -/
def collectCandidates (pass : ℕ → Bool) (limit : ℕ) (acc : List ℕ) :
    List ℕ → List ℕ
  | [] => acc.reverse
  | idx :: rest =>
    if pass idx then
      if limit ≤ acc.length + 1 then (idx :: acc).reverse
      else collectCandidates pass limit (idx :: acc) rest
    else collectCandidates pass limit acc rest

/-- Lower-cased nonempty genre tokens of the movie at an index. -/
def movieGenresLowerAt (c : Catalog) (idx : ℕ) : List String :=
  (((movieAt c idx).genres.splitOn "|").filter (fun g => g ≠ "")).map String.toLower

/-- The seed-collection loop of `ensure_genre_coverage`: scanning the
ranked candidates, each one may seed the first preferred genre it covers
that is not yet covered; the loop breaks once the covered set has
reached the size of the preferred list. -/
def coverageSeeds (c : Catalog) (pgl : List String) (covered : List String)
    (seeds : List ℕ) : List ℕ → List String × List ℕ
  | [] => (covered, seeds)
  | idx :: rest =>
    if pgl.length ≤ covered.length then (covered, seeds)
    else
      match pgl.find? (fun g => decide (g ∈ movieGenresLowerAt c idx ∧ g ∉ covered)) with
      | some g => coverageSeeds c pgl (covered ++ [g]) (seeds ++ [idx]) rest
      | none => coverageSeeds c pgl covered seeds rest

/-- The fill loop of `ensure_genre_coverage`: remaining ranked
candidates outside the seed set are appended until k entries have been
gathered. -/
def coverageFill (seed_set : List ℕ) (k : ℕ) (acc : List ℕ) : List ℕ → List ℕ
  | [] => acc
  | idx :: rest =>
    if k ≤ acc.length then acc
    else if idx ∈ seed_set then coverageFill seed_set k acc rest
    else coverageFill seed_set k (acc ++ [idx]) rest

/-- Translation of `ensure_genre_coverage`. -/
def ensure_genre_coverage (c : Catalog) (ranked_indices : List ℕ)
    (preferred_genres : List String) (k : ℕ) : List ℕ :=
  if preferred_genres = [] then ranked_indices.take k
  else
    let pgl := preferred_genres.map String.toLower
    let seed_list := (coverageSeeds c pgl [] [] ranked_indices).2
    (coverageFill seed_list k seed_list ranked_indices).take k

/-- Primary genre of a genre token list: the first token matching a
preferred genre, lower-cased, else the first token. -/
def primaryGenreOf (pgl : List String) (genres_list : List String) : Option String :=
  match genres_list.find? (fun g => decide (g.toLower ∈ pgl)) with
  | some g => some g.toLower
  | none => genres_list.head?.map String.toLower

/-- Primary genre of the movie at an index. -/
def primaryGenreAt (c : Catalog) (pgl : List String) (idx : ℕ) : Option String :=
  primaryGenreOf pgl ((movieAt c idx).genres.splitOn "|")

/-- The admission loop of `diversify_by_genre`: each candidate is
admitted only while the running count of its primary genre is below the
cap, until k entries have been admitted. -/
def diversifyGo (c : Catalog) (pgl : List String) (max_per_genre k : ℕ)
    (counts : String → ℕ) (acc : List ℕ) : List ℕ → List ℕ
  | [] => acc
  | idx :: rest =>
    if k ≤ acc.length then acc
    else
      match primaryGenreAt c pgl idx with
      | none => diversifyGo c pgl max_per_genre k counts acc rest
      | some g =>
        if counts g < max_per_genre then
          diversifyGo c pgl max_per_genre k
            (fun x => if x = g then counts g + 1 else counts x) (acc ++ [idx]) rest
        else diversifyGo c pgl max_per_genre k counts acc rest

/-- Translation of `diversify_by_genre`. -/
def diversify_by_genre (c : Catalog) (ranked_indices : List ℕ)
    (preferred_genres : List String) (k max_per_genre : ℕ) : List ℕ :=
  diversifyGo c (preferred_genres.map String.toLower) max_per_genre k
    (fun _ => 0) [] ranked_indices

/-- Translation of `build_poster_url`. -/
def build_poster_url (poster_path : Option String) : Option String :=
  match poster_path with
  | none => none
  | some s =>
    if s = "" ∨ s.toLower = "nan" ∨ s.trim = "" then none
    else
      let t := s.trim
      let t := if t.startsWith "/" then t else "/" ++ t
      some ("https://image.tmdb.org/t/p/w500" ++ t)

/-- Translation of `generate_explanation`. -/
def generate_explanation (movie : Movie) (prefs : UserPreferences) : String :=
  let movie_genres := movie.genres.splitOn "|"
  let movie_services := movie.services.splitOn "|"
  let reasons : List String := []
  let reasons :=
    if prefs.preferred_genres ≠ [] then
      let matching_genres := movie_genres.filter (fun g => g ∈ prefs.preferred_genres)
      if matching_genres ≠ [] then
        reasons ++ ["Matches your preferred genres: " ++ String.intercalate ", " matching_genres]
      else reasons
    else reasons
  let reasons :=
    if prefs.services ≠ [] then
      let matching_services := movie_services.filter (fun s => s ∈ prefs.services)
      if matching_services ≠ [] then
        reasons ++ ["Available on " ++ String.intercalate ", " matching_services]
      else reasons
    else reasons
  let reasons :=
    if prefs.liked_movie_ids ≠ [] then reasons ++ ["Similar to movies you\x27ve liked"]
    else reasons
  let reasons :=
    if reasons = [] then
      ["Popular " ++ String.intercalate ", " (movie_genres.take 2) ++ " movie"]
    else reasons
  String.intercalate " • " reasons

/-- One output record of `recommend` before the final JSON
sanitization; the score is still a float value. -/
structure RecOut where
  movie_id : Int
  title : String
  year : Int
  runtime : Int
  overview : String
  genres : List String
  services : List String
  poster_url : Option String
  poster_path : Option String
  score : PyFloat
  explanation : String
deriving DecidableEq, Repr

/-- Record construction of the `recommend` result loop: a non-finite
combined score is replaced by 0.0, and a missing or non-finite year or
runtime falls back to 2000 or 120. -/
def buildRecord (c : Catalog) (prefs : UserPreferences) (combined : List PyFloat)
    (idx : ℕ) : RecOut :=
  let movie := movieAt c idx
  let score0 := combined.getD idx .nan
  let score := if score0.isFinite then score0 else .finite 0
  let year : Int :=
    match movie.year with
    | some (.finite q) => pyInt q
    | _ => 2000
  let runtime : Int :=
    match movie.runtime with
    | some (.finite q) => pyInt q
    | _ => 120
  { movie_id := movie.movieId, title := movie.title, year := year, runtime := runtime,
    overview := movie.overview, genres := movie.genres.splitOn "|",
    services := movie.services.splitOn "|",
    poster_url := build_poster_url movie.poster_path,
    poster_path := movie.poster_path,
    score := score,
    explanation := generate_explanation movie prefs }

/-- The float case of `sanitize_for_json`: a non-finite float becomes
`None` (JSON null), a finite float is kept. -/
def sanitizeFloat (f : PyFloat) : Option PyFloat :=
  if f.isFinite then some f else none

/-- One output record after `sanitize_for_json`: the score field is
either null or a kept float; every other field of the record is either
an integer, a string, a string list or an optional string, which the
recursive sanitization leaves unchanged. -/
structure RecFinal where
  movie_id : Int
  title : String
  year : Int
  runtime : Int
  overview : String
  genres : List String
  services : List String
  poster_url : Option String
  poster_path : Option String
  score : Option PyFloat
  explanation : String
deriving DecidableEq, Repr

/-- Record-level action of `sanitize_for_json`. -/
def sanitize_record (r : RecOut) : RecFinal :=
  { movie_id := r.movie_id, title := r.title, year := r.year, runtime := r.runtime,
    overview := r.overview, genres := r.genres, services := r.services,
    poster_url := r.poster_url, poster_path := r.poster_path,
    score := sanitizeFloat r.score, explanation := r.explanation }

/-- Combined scores of a `recommend` invocation.  The raw similarity
vector is the output of the external `cosine_similarity` call on the
profile built by `build_user_profile`, so it enters as an input; the
incoming generator state is reset by `np.random.seed(42)` before the
noise is drawn. -/
def combinedOf (c : Catalog) (rawSims : List PyFloat) (rngState : ℕ)
    (prefs : UserPreferences) (mode : String) : List PyFloat :=
  combinedScores c rawSims prefs mode
    (genNoise (npSeed 42 rngState) c.movies_meta.length)

/-- Stage one of `recommend`: the top `top_k * 10` indices by combined
score, filtered by `candidatePass` with an early stop at
`top_k * 3` candidates. -/
def filteredCandidates (c : Catalog) (rawSims : List PyFloat) (rngState : ℕ)
    (prefs : UserPreferences) (top_k : ℕ) (mode : String)
    (filter_genre filter_service filter_year_bucket filter_runtime_bucket : Option String) :
    List ℕ :=
  let combined := combinedOf c rawSims rngState prefs mode
  let top_indices := (argsortDescend (combined.map PyFloat.toRat)).take (top_k * 10)
  collectCandidates
    (candidatePass c prefs mode filter_genre filter_service filter_year_bucket
      filter_runtime_bucket)
    (top_k * 3) [] top_indices

/-- Stage two of `recommend`: genre coverage, applied only when
preferred genres exist and more than `top_k` candidates survived. -/
def coveredCandidates (c : Catalog) (rawSims : List PyFloat) (rngState : ℕ)
    (prefs : UserPreferences) (top_k : ℕ) (mode : String)
    (filter_genre filter_service filter_year_bucket filter_runtime_bucket : Option String) :
    List ℕ :=
  let filtered := filteredCandidates c rawSims rngState prefs top_k mode
    filter_genre filter_service filter_year_bucket filter_runtime_bucket
  if prefs.preferred_genres ≠ [] ∧ top_k < filtered.length then
    ensure_genre_coverage c filtered prefs.preferred_genres (top_k * 2)
  else filtered.take (top_k * 2)

/-- Stage three of `recommend`: genre diversification with the cap
`max(3, int(top_k * 0.5))`, applied only when preferred genres exist
and more than `top_k` covered candidates remain. -/
def finalIndices (c : Catalog) (rawSims : List PyFloat) (rngState : ℕ)
    (prefs : UserPreferences) (top_k : ℕ) (mode : String)
    (filter_genre filter_service filter_year_bucket filter_runtime_bucket : Option String) :
    List ℕ :=
  let covered := coveredCandidates c rawSims rngState prefs top_k mode
    filter_genre filter_service filter_year_bucket filter_runtime_bucket
  if prefs.preferred_genres ≠ [] ∧ top_k < covered.length then
    diversify_by_genre c covered prefs.preferred_genres top_k (max 3 (top_k / 2))
  else covered.take top_k

/-- The result-record list of `recommend` before the final
`sanitize_for_json` pass. -/
def recommendRecords (c : Catalog) (rawSims : List PyFloat) (rngState : ℕ)
    (prefs : UserPreferences) (top_k : ℕ) (mode : String)
    (filter_genre filter_service filter_year_bucket filter_runtime_bucket : Option String) :
    List RecOut :=
  (finalIndices c rawSims rngState prefs top_k mode filter_genre filter_service
      filter_year_bucket filter_runtime_bucket).map
    (buildRecord c prefs (combinedOf c rawSims rngState prefs mode))

/-- Translation of `recommend`: the staged pipeline followed by the
final JSON sanitization pass. -/
def recommend (c : Catalog) (rawSims : List PyFloat) (rngState : ℕ)
    (prefs : UserPreferences) (top_k : ℕ) (mode : String)
    (filter_genre filter_service filter_year_bucket filter_runtime_bucket : Option String) :
    List RecFinal :=
  (recommendRecords c rawSims rngState prefs top_k mode filter_genre filter_service
      filter_year_bucket filter_runtime_bucket).map sanitize_record

/-- Number of entries of an index list whose primary genre is `g`. -/
def countPrimary (c : Catalog) (pgl : List String) (l : List ℕ) (g : String) : ℕ :=
  (l.filter (fun i => decide (primaryGenreAt c pgl i = some g))).length

/-- Raw similarity vector used by the witnesses on the three-movie
catalog. -/
def cxSims : List PyFloat := [.finite (9/10), .finite (8/10), .finite (7/10)]

/-- Preferences with exclusions, used by the exclusion witness. -/
def wit1Prefs : UserPreferences :=
  { not_interested_ids := [2], disliked_movie_ids := [3] }

/-- Movie with the single genre Action, used by the diversification
counterexample. -/
def actionMovie (n : Int) : Movie :=
  { movieId := n, title := "", genres := "Action", services := "N",
    year := some (.finite 2000), runtime := some (.finite 100),
    original_language := "en", overview := "", poster_path := none,
    popularity := .val 1, vote_count := .absent }

/-- Six-movie single-genre catalog for the diversification
counterexample. -/
def cx9Catalog : Catalog :=
  { movies_meta := [actionMovie 1, actionMovie 2, actionMovie 3,
      actionMovie 4, actionMovie 5, actionMovie 6],
    item_features := [[1], [1], [1], [1], [1], [1]],
    genre_classes := ["Action"],
    tfidf_size := 0, dim := 1 }

/-- Preferences for the diversification counterexample. -/
def cx9Prefs : UserPreferences := { preferred_genres := ["Action"] }

/-- Distinct raw similarities for the six-movie catalog. -/
def cx9Sims : List PyFloat :=
  [.finite (6/10), .finite (5/10), .finite (4/10),
   .finite (3/10), .finite (2/10), .finite (1/10)]

/-- Seven-movie catalog, large enough that the diversification branch
of `recommend` runs at top k 6. -/
def cx9bCatalog : Catalog :=
  { movies_meta := [actionMovie 1, actionMovie 2, actionMovie 3, actionMovie 4,
      actionMovie 5, actionMovie 6, actionMovie 7],
    item_features := [[1], [1], [1], [1], [1], [1], [1]],
    genre_classes := ["Action"],
    tfidf_size := 0, dim := 1 }

/-- Distinct raw similarities for the seven-movie catalog. -/
def cx9bSims : List PyFloat :=
  [.finite (7/10), .finite (6/10), .finite (5/10), .finite (4/10),
   .finite (3/10), .finite (2/10), .finite (1/10)]

/-- Placeholder pre-sanitization record for list lookups in the
witnesses. -/
def blankRecOut : RecOut :=
  { movie_id := 0, title := "", year := 0, runtime := 0, overview := "",
    genres := [], services := [], poster_url := none, poster_path := none,
    score := .finite 0, explanation := "" }

/-- Placeholder output record for list lookups in the witnesses. -/
def blankRecFinal : RecFinal :=
  { movie_id := 0, title := "", year := 0, runtime := 0, overview := "",
    genres := [], services := [], poster_url := none, poster_path := none,
    score := none, explanation := "" }

lemma yearBucket_recent_eval (y : Int) (hy : y ≠ 0) :
    filter_by_year_bucket (movieWithYear y) "recent" = decide (2018 ≤ y) := by
  have hy' : ((y : ℚ) ≠ 0) := by exact_mod_cast hy
  simp [filter_by_year_bucket, movieWithYear, pyTruthy, pyLe, hy']
  norm_cast

lemma yearBucket_2010s_eval (y : Int) (hy : y ≠ 0) :
    filter_by_year_bucket (movieWithYear y) "2010s"
      = (decide (2010 ≤ y) && decide (y ≤ 2019)) := by
  have hy' : ((y : ℚ) ≠ 0) := by exact_mod_cast hy
  simp [filter_by_year_bucket, movieWithYear, pyTruthy, pyLe, hy']
  norm_cast

lemma yearBucket_2000s_eval (y : Int) (hy : y ≠ 0) :
    filter_by_year_bucket (movieWithYear y) "2000s"
      = (decide (2000 ≤ y) && decide (y ≤ 2009)) := by
  have hy' : ((y : ℚ) ≠ 0) := by exact_mod_cast hy
  simp [filter_by_year_bucket, movieWithYear, pyTruthy, pyLe, hy']
  norm_cast

lemma yearBucket_90s_eval (y : Int) (hy : y ≠ 0) :
    filter_by_year_bucket (movieWithYear y) "90s"
      = (decide (1990 ≤ y) && decide (y ≤ 1999)) := by
  have hy' : ((y : ℚ) ≠ 0) := by exact_mod_cast hy
  simp [filter_by_year_bucket, movieWithYear, pyTruthy, pyLe, hy']
  norm_cast

lemma yearBucket_classic_eval (y : Int) (hy : y ≠ 0) :
    filter_by_year_bucket (movieWithYear y) "classic" = decide (y < 1990) := by
  have hy' : ((y : ℚ) ≠ 0) := by exact_mod_cast hy
  simp [filter_by_year_bucket, movieWithYear, pyTruthy, pyLe, pyLt, hy']
  norm_cast

lemma runtimeBucket_short_eval (r : ℚ) (hr : r ≠ 0) :
    filter_by_runtime_bucket (movieWithRuntime r) "short" = decide (r < 90) := by
  simp [filter_by_runtime_bucket, movieWithRuntime, pyTruthy, pyLt, hr]

lemma runtimeBucket_medium_eval (r : ℚ) (hr : r ≠ 0) :
    filter_by_runtime_bucket (movieWithRuntime r) "medium"
      = (decide (90 ≤ r) && decide (r ≤ 150)) := by
  simp [filter_by_runtime_bucket, movieWithRuntime, pyTruthy, pyLe, hr]

lemma runtimeBucket_long_eval (r : ℚ) (hr : r ≠ 0) :
    filter_by_runtime_bucket (movieWithRuntime r) "long" = decide (150 < r) := by
  simp [filter_by_runtime_bucket, movieWithRuntime, pyTruthy, pyLt, hr]

/-- Claim C5, counterexample: the year 2018 satisfies both the `recent`
bucket (≥ 2018) and the `2010s` bucket (2010 – 2019) of
`filter_by_year_bucket`, so the year buckets are not a partition and the
year 2018 does not satisfy exactly one bucket. -/
theorem year_buckets_overlap_at_2018 :
    filter_by_year_bucket (movieWithYear 2018) "recent" = true ∧
    filter_by_year_bucket (movieWithYear 2018) "2010s" = true ∧
    yearBucketCount 2018 ≠ 1 := by
  refine ⟨by decide, by decide, by decide⟩

/-- Claim C5, amended: the runtime buckets of
`filter_by_runtime_bucket` form an exact partition of the positive
runtimes (`short` < 90, `medium` 90 – 150, `long` > 150), and the year
buckets of `filter_by_year_bucket` are exhaustive over the nonzero
integer years but overlap: a year matches exactly one bucket unless it
is 2018 or 2019, each of which matches both `recent` and `2010s`. -/
theorem year_runtime_buckets_amended (y : Int) (r : ℚ) :
    (y ≠ 0 → yearBucketCount y = if y = 2018 ∨ y = 2019 then 2 else 1) ∧
    (0 < r → runtimeBucketCount r = 1) := by
  constructor
  · intro hy
    have e1 := yearBucket_recent_eval y hy
    have e2 := yearBucket_2010s_eval y hy
    have e3 := yearBucket_2000s_eval y hy
    have e4 := yearBucket_90s_eval y hy
    have e5 := yearBucket_classic_eval y hy
    have key : yearBucketCount y
        = (if 2018 ≤ y then 1 else 0) + (if 2010 ≤ y ∧ y ≤ 2019 then 1 else 0)
          + (if 2000 ≤ y ∧ y ≤ 2009 then 1 else 0)
          + (if 1990 ≤ y ∧ y ≤ 1999 then 1 else 0)
          + (if y < 1990 then 1 else 0) := by
      simp only [yearBucketCount, yearBucketNames, List.filter_cons, List.filter_nil,
        e1, e2, e3, e4, e5, Bool.and_eq_true, decide_eq_true_eq]
      split_ifs <;> simp
    rw [key]; split_ifs <;> omega
  · intro hr
    have hr' : r ≠ 0 := ne_of_gt hr
    have e1 := runtimeBucket_short_eval r hr'
    have e2 := runtimeBucket_medium_eval r hr'
    have e3 := runtimeBucket_long_eval r hr'
    have key : runtimeBucketCount r
        = (if r < 90 then 1 else 0) + (if 90 ≤ r ∧ r ≤ 150 then 1 else 0)
          + (if 150 < r then 1 else 0) := by
      simp only [runtimeBucketCount, runtimeBucketNames, List.filter_cons, List.filter_nil,
        e1, e2, e3, Bool.and_eq_true, decide_eq_true_eq]
      split_ifs <;> simp
    rw [key]
    rcases lt_or_le r 90 with h | h
    · rw [if_pos h, if_neg (by rintro ⟨ha, _⟩; linarith), if_neg (by linarith)]
    · rcases le_or_lt r 150 with h2 | h2
      · rw [if_neg (by linarith), if_pos ⟨h, h2⟩, if_neg (by linarith)]
      · rw [if_neg (by linarith), if_neg (by rintro ⟨_, hb⟩; linarith), if_pos h2]

/-- Witness for the amended bucket claim: the year 2000 matches exactly
one year bucket and the runtime 100 matches exactly one runtime
bucket. -/
theorem year_runtime_buckets_amended_witness :
    yearBucketCount 2000 = 1 ∧ runtimeBucketCount 100 = 1 := by
  constructor
  · have h := (year_runtime_buckets_amended 2000 100).1 (by decide)
    simpa using h
  · exact (year_runtime_buckets_amended 2000 100).2 (by norm_num)

lemma genre_step (movie : Movie) (prefs : UserPreferences) (a : ℚ) :
    (if prefs.preferred_genres ≠ [] then
      if (movieGenreSet movie).Nonempty ∧ (prefGenreSet prefs).Nonempty then
        a + 0.5 * (if 0 < ((movieGenreSet movie ∪ prefGenreSet prefs).card : ℚ) then
            ((movieGenreSet movie ∩ prefGenreSet prefs).card : ℚ)
              / ((movieGenreSet movie ∪ prefGenreSet prefs).card : ℚ) else 0)
      else a
    else a) = a + 0.5 * genreJaccard movie prefs := by
  by_cases hpg : prefs.preferred_genres = []
  · have hps : prefGenreSet prefs = ∅ := by simp [prefGenreSet, hpg]
    simp [hpg, genreJaccard, hps]
  · have hps : prefGenreSet prefs ≠ ∅ := by
      simp [prefGenreSet, hpg]
    have hpne : (prefGenreSet prefs).Nonempty := Finset.nonempty_iff_ne_empty.mpr hps
    have hu : (0 : ℚ) < ((movieGenreSet movie ∪ prefGenreSet prefs).card : ℚ) := by
      have : (movieGenreSet movie ∪ prefGenreSet prefs).Nonempty :=
        hpne.mono Finset.subset_union_right
      exact_mod_cast Finset.card_pos.mpr this
    by_cases hmg : (movieGenreSet movie).Nonempty
    · simp [hpg, hmg, hpne, genreJaccard, hps, hu]
    · have hmge : movieGenreSet movie = ∅ := Finset.not_nonempty_iff_eq_empty.mp hmg
      simp [hpg, hmg, genreJaccard, hps, hmge]

lemma service_step (movie : Movie) (prefs : UserPreferences) (a : ℚ) :
    (if prefs.services ≠ [] then
      if (movieServiceSet movie ∩ prefServiceSet prefs).Nonempty then a + 0.25 else a
    else a)
    = a + (if (movieServiceSet movie ∩ prefServiceSet prefs).Nonempty
           then (0.25 : ℚ) else 0) := by
  by_cases hs : prefs.services = []
  · have : prefServiceSet prefs = ∅ := by simp [prefServiceSet, hs]
    simp [hs, this]
  · by_cases hi : (movieServiceSet movie ∩ prefServiceSet prefs).Nonempty <;> simp [hs, hi]

lemma runtime_chain_eq (prefs : UserPreferences) (r : ℚ) :
    (if prefs.runtime_min.isSome ∧ r < ((prefs.runtime_min.getD 0 : Int) : ℚ) then false
     else if prefs.runtime_max.isSome ∧ ((prefs.runtime_max.getD 0 : Int) : ℚ) < r then false
     else true) = runtimeInBounds prefs r := by
  rcases hmn : prefs.runtime_min with _ | mn <;> rcases hmx : prefs.runtime_max with _ | mx
  · simp [runtimeInBounds, hmn, hmx]
  · simp only [runtimeInBounds, hmn, hmx, Option.isSome_none, Option.isSome_some, Option.getD,
      false_and, if_false, true_and, Bool.true_and]
    by_cases h : r ≤ (mx : ℚ)
    · simp [h, not_lt.mpr h]
    · simp [h, not_le.mp h]
  · simp only [runtimeInBounds, hmn, hmx, Option.isSome_none, Option.isSome_some, Option.getD,
      false_and, if_false, true_and, Bool.and_true]
    by_cases h : (mn : ℚ) ≤ r
    · simp [h, not_lt.mpr h]
    · simp [h, not_le.mp h]
  · simp only [runtimeInBounds, hmn, hmx, Option.isSome_some, Option.getD, true_and]
    by_cases h1 : (mn : ℚ) ≤ r
    · by_cases h2 : r ≤ (mx : ℚ)
      · simp [h1, h2, not_lt.mpr h1, not_lt.mpr h2]
      · simp [h1, h2, not_lt.mpr h1, not_le.mp h2]
    · simp [h1, not_le.mp h1]

lemma runtime_step (prefs : UserPreferences) (rt : Option PyFloat) (a : ℚ) :
    (match rt with
     | some (.finite r) =>
        let in_range :=
          if prefs.runtime_min.isSome ∧ r < ((prefs.runtime_min.getD 0 : Int) : ℚ) then false
          else if prefs.runtime_max.isSome ∧ ((prefs.runtime_max.getD 0 : Int) : ℚ) < r then false
          else true
        if in_range then a + 0.15 else a
     | _ => a + 0.075)
    = a + (match rt with
           | some (.finite r) => if runtimeInBounds prefs r then (0.15 : ℚ) else 0
           | _ => 0.075) := by
  rcases rt with _ | pf
  · rfl
  · rcases pf with q | _ | _ | _
    · dsimp only
      rw [runtime_chain_eq]
      by_cases hb : runtimeInBounds prefs q <;> simp [hb]
    · rfl
    · rfl
    · rfl

lemma language_step (movie : Movie) (prefs : UserPreferences) (a : ℚ) :
    (if prefs.languages ≠ [] then
      if movie.original_language.toLower ∈ prefs.languages.map String.toLower
      then a + 0.10 else a
    else a)
    = a + (if movie.original_language.toLower ∈ prefs.languages.map String.toLower
           then (0.10 : ℚ) else 0) := by
  by_cases hl : prefs.languages = []
  · simp [hl]
  · by_cases hm : movie.original_language.toLower ∈ prefs.languages.map String.toLower <;>
      simp [hl, hm]

/-- Claim C4: for every movie and every preferences object,
`compute_preference_alignment` returns a value in the unit interval
equal to the clamped sum of the four independent sub-scores described by
the specification: 0.5 times the Jaccard genre overlap (0 when the
preferred set is empty), 0.25 for a service intersection, 0.15 for a
runtime within the user bounds or unset bounds with half weight 0.075
for a missing or non-finite runtime, and 0.10 for a preferred primary
language. -/
theorem compute_preference_alignment_correct (movie : Movie) (prefs : UserPreferences) :
    compute_preference_alignment movie prefs = alignmentSpec movie prefs ∧
    0 ≤ compute_preference_alignment movie prefs ∧
    compute_preference_alignment movie prefs ≤ 1 := by
  refine ⟨?_, ?_, ?_⟩
  · simp only [compute_preference_alignment, alignmentSpec]
    rw [genre_step, service_step, runtime_step, language_step]
    exact congrArg (fun x => min 1 (max 0 x)) (by ring)
  · obtain ⟨a, ha⟩ : ∃ a, compute_preference_alignment movie prefs = min 1 (max 0 a) :=
      ⟨_, rfl⟩
    rw [ha]
    exact le_min (by norm_num) (le_max_left 0 a)
  · obtain ⟨a, ha⟩ : ∃ a, compute_preference_alignment movie prefs = min 1 (max 0 a) :=
      ⟨_, rfl⟩
    rw [ha]
    exact min_le_left 1 _

lemma resolvedLikedIndices_nil_of_liked_nil (c : Catalog) (prefs : UserPreferences)
    (hl : prefs.liked_movie_ids = []) : resolvedLikedIndices c prefs = [] := by
  simp [resolvedLikedIndices, hl]

lemma genreBoostIndices_nil_of_pg_nil (c : Catalog) (prefs : UserPreferences)
    (hpg : prefs.preferred_genres = []) : genreBoostIndices c prefs = [] := by
  simp [genreBoostIndices, hpg]

lemma build_user_profile_eq_spec (c : Catalog) (prefs : UserPreferences) :
    build_user_profile c prefs = buildUserProfileSpec c prefs := by
  by_cases hl : prefs.liked_movie_ids = []
  · have hr := resolvedLikedIndices_nil_of_liked_nil c prefs hl
    by_cases hpg : prefs.preferred_genres = []
    · have hgi := genreBoostIndices_nil_of_pg_nil c prefs hpg
      simp [build_user_profile, buildUserProfileSpec, hl, hr, hpg, hgi]
    · by_cases hgi : genreBoostIndices c prefs = [] <;>
        simp [build_user_profile, buildUserProfileSpec, hl, hr, hpg, hgi]
  · by_cases hr : resolvedLikedIndices c prefs = []
    · by_cases hpg : prefs.preferred_genres = []
      · have hgi := genreBoostIndices_nil_of_pg_nil c prefs hpg
        simp [build_user_profile, buildUserProfileSpec, hl, hr, hpg, hgi]
      · by_cases hgi : genreBoostIndices c prefs = [] <;>
          simp [build_user_profile, buildUserProfileSpec, hl, hr, hpg, hgi]
    · by_cases hpg : prefs.preferred_genres = []
      · have hgi := genreBoostIndices_nil_of_pg_nil c prefs hpg
        simp [build_user_profile, buildUserProfileSpec, hl, hr, hpg, hgi]
      · by_cases hgi : genreBoostIndices c prefs = [] <;>
          simp [build_user_profile, buildUserProfileSpec, hl, hr, hpg, hgi]

/-- Claim C3: `build_user_profile` satisfies the blend rule of the
specification — when the base profile (mean of the resolvable liked
feature rows) and the genre boost both exist the result is
0.8 base + 0.2 boost, when exactly one exists the result is that one,
when neither exists the result is the catalog mean — and a liked id
absent from the catalog is silently ignored: appending it to the liked
list leaves the profile unchanged. -/
theorem build_user_profile_blend (c : Catalog) (prefs : UserPreferences) :
    build_user_profile c prefs = buildUserProfileSpec c prefs ∧
    (∀ mid : Int, movie_id_to_idx c mid = none →
      build_user_profile c { prefs with liked_movie_ids := prefs.liked_movie_ids ++ [mid] }
        = build_user_profile c prefs) := by
  refine ⟨build_user_profile_eq_spec c prefs, fun mid hmid => ?_⟩
  rw [build_user_profile_eq_spec, build_user_profile_eq_spec]
  have h1 : resolvedLikedIndices c
      { prefs with liked_movie_ids := prefs.liked_movie_ids ++ [mid] }
      = resolvedLikedIndices c prefs := by
    simp [resolvedLikedIndices, List.filterMap_append, hmid]
  have h2 : genreBoostIndices c
      { prefs with liked_movie_ids := prefs.liked_movie_ids ++ [mid] }
      = genreBoostIndices c prefs := rfl
  simp only [buildUserProfileSpec, h1, h2]

/-- Witness for the blend claim at the concrete catalog: id 99 does not
resolve, so appending it to the liked list leaves the profile
unchanged. -/
theorem build_user_profile_blend_witness :
    build_user_profile witCatalog witPrefs = buildUserProfileSpec witCatalog witPrefs ∧
    build_user_profile witCatalog
        { witPrefs with liked_movie_ids := witPrefs.liked_movie_ids ++ [99] }
      = build_user_profile witCatalog witPrefs :=
  ⟨(build_user_profile_blend witCatalog witPrefs).1,
   (build_user_profile_blend witCatalog witPrefs).2 99 (by decide)⟩

/-- Claim C6, counterexample: a positive-infinite raw cosine similarity
is replaced by 1, not by the neutral default 0 — the substitution map of
the similarity stage sends NaN to 0, positive infinity to 1 and
negative infinity to 0. -/
theorem sanitizeSimilarity_posinf_not_zero :
    sanitizeSimilarity PyFloat.inf = 1 ∧ sanitizeSimilarity PyFloat.inf ≠ 0 := by
  constructor <;> norm_num [sanitizeSimilarity, nanToNum]

/-- Claim C6, amended: the similarity sanitization replaces NaN and
negative infinity by 0 and positive infinity by 1; every sanitized
per-item similarity is therefore a finite rational, and it lies between
-1 and 1 whenever every finite raw value does, the substitution values
0 and 1 themselves lying in that interval. -/
theorem sanitizeSimilarity_amended (s : PyFloat) :
    (s = PyFloat.nan ∨ s = PyFloat.neginf → sanitizeSimilarity s = 0) ∧
    (s = PyFloat.inf → sanitizeSimilarity s = 1) ∧
    ((∀ q, s = PyFloat.finite q → -1 ≤ q ∧ q ≤ 1) →
      -1 ≤ sanitizeSimilarity s ∧ sanitizeSimilarity s ≤ 1) := by
  rcases s with q | _ | _ | _
  · refine ⟨by simp, by simp, fun h => ?_⟩
    simpa [sanitizeSimilarity, nanToNum] using h q rfl
  · exact ⟨fun _ => rfl, by simp, fun _ => by norm_num [sanitizeSimilarity, nanToNum]⟩
  · exact ⟨by simp, fun _ => rfl, fun _ => by norm_num [sanitizeSimilarity, nanToNum]⟩
  · exact ⟨fun _ => rfl, by simp, fun _ => by norm_num [sanitizeSimilarity, nanToNum]⟩

/-- Witness for the amended sanitization claim: NaN is sent to 0, and a
finite in-range raw similarity stays in range. -/
theorem sanitizeSimilarity_amended_witness :
    sanitizeSimilarity PyFloat.nan = 0 ∧
    (-1 ≤ sanitizeSimilarity (PyFloat.finite (1/2)) ∧
      sanitizeSimilarity (PyFloat.finite (1/2)) ≤ 1) :=
  ⟨(sanitizeSimilarity_amended PyFloat.nan).1 (Or.inl rfl),
   (sanitizeSimilarity_amended (PyFloat.finite (1/2))).2.2
     (by rintro q hq; cases hq; norm_num)⟩

lemma isFinite_iff {f : PyFloat} : f.isFinite = true ↔ ∃ q, f = PyFloat.finite q := by
  rcases f with q | _ | _ | _ <;> simp [PyFloat.isFinite]

/-- Claim C8: `recommend` is deterministic — two calls with identical
catalog snapshot, raw similarities, preferences, mode, mode parameters
and top k return identical output, whatever the incoming generator
states were, because the tie-break noise is drawn after reseeding with
the fixed seed 42. -/
theorem recommend_deterministic (c : Catalog) (rawSims : List PyFloat)
    (prefs : UserPreferences) (top_k : ℕ) (mode : String)
    (filter_genre filter_service filter_year_bucket filter_runtime_bucket : Option String)
    (s₁ s₂ : ℕ) :
    recommend c rawSims s₁ prefs top_k mode filter_genre filter_service
      filter_year_bucket filter_runtime_bucket =
    recommend c rawSims s₂ prefs top_k mode filter_genre filter_service
      filter_year_bucket filter_runtime_bucket := rfl

lemma insertRanked_perm (le : ℕ → ℕ → Bool) (x : ℕ) (l : List ℕ) :
    (insertRanked le x l).Perm (x :: l) := by
  induction l with
  | nil => simp [insertRanked]
  | cons y ys ih =>
    rw [insertRanked]
    by_cases h : le x y = true
    · simp [h]
    · simp only [h, if_false]
      exact (ih.cons y).trans (List.Perm.swap x y ys)

lemma sortRanked_perm (le : ℕ → ℕ → Bool) (l : List ℕ) :
    (sortRanked le l).Perm l := by
  induction l with
  | nil => simp [sortRanked]
  | cons x xs ih =>
    rw [sortRanked]
    exact (insertRanked_perm le x (sortRanked le xs)).trans (ih.cons x)

lemma argsortDescend_perm (scores : List ℚ) :
    (argsortDescend scores).Perm (List.range scores.length) :=
  sortRanked_perm _ _

lemma argsortDescend_nodup (scores : List ℚ) : (argsortDescend scores).Nodup :=
  ((argsortDescend_perm scores).nodup_iff).mpr (List.nodup_range _)

lemma mem_argsortDescend_lt {scores : List ℚ} {i : ℕ} (h : i ∈ argsortDescend scores) :
    i < scores.length := by
  have := (argsortDescend_perm scores).mem_iff.mp h
  simpa using this

lemma collectCandidates_spec (pass : ℕ → Bool) (limit : ℕ) (l acc : List ℕ) :
    ∃ t, collectCandidates pass limit acc l = acc.reverse ++ t ∧
      t.Sublist l ∧ ∀ i ∈ t, pass i = true := by
  induction l generalizing acc with
  | nil => exact ⟨[], by simp [collectCandidates], by simp, by simp⟩
  | cons x rest ih =>
    rw [collectCandidates]
    by_cases hp : pass x = true
    · by_cases hl : limit ≤ acc.length + 1
      · refine ⟨[x], ?_, ?_, ?_⟩
        · simp [hp, hl]
        · exact (List.nil_sublist rest).cons₂ x
        · simpa using hp
      · obtain ⟨t, ht, hsub, hpt⟩ := ih (x :: acc)
        refine ⟨x :: t, ?_, hsub.cons₂ x, ?_⟩
        · simp [hp, hl, ht]
        · intro i hi
          rcases hi with _ | hi
          · exact hp
          · exact hpt i (by assumption)
    · obtain ⟨t, ht, hsub, hpt⟩ := ih acc
      exact ⟨t, by simp [hp, ht], hsub.cons x, hpt⟩

lemma mem_collectCandidates_nil_acc {pass : ℕ → Bool} {limit : ℕ} {l : List ℕ} {i : ℕ}
    (h : i ∈ collectCandidates pass limit [] l) : i ∈ l ∧ pass i = true := by
  obtain ⟨t, ht, hsub, hpt⟩ := collectCandidates_spec pass limit l []
  rw [ht] at h
  simp only [List.reverse_nil, List.nil_append] at h
  exact ⟨hsub.mem h, hpt i h⟩

lemma collectCandidates_nil_acc_nodup {pass : ℕ → Bool} {limit : ℕ} {l : List ℕ}
    (hl : l.Nodup) : (collectCandidates pass limit [] l).Nodup := by
  obtain ⟨t, ht, hsub, _⟩ := collectCandidates_spec pass limit l []
  rw [ht]
  simpa using hl.sublist hsub

lemma coverageSeeds_spec (c : Catalog) (pgl : List String) (l : List ℕ)
    (covered : List String) (seeds : List ℕ) :
    ∃ t, (coverageSeeds c pgl covered seeds l).2 = seeds ++ t ∧ t.Sublist l := by
  induction l generalizing covered seeds with
  | nil => exact ⟨[], by simp [coverageSeeds], by simp⟩
  | cons x rest ih =>
    rw [coverageSeeds]
    by_cases hb : pgl.length ≤ covered.length
    · exact ⟨[], by simp [hb], by simp⟩
    · simp only [hb, if_false]
      cases hf : pgl.find? (fun g => decide (g ∈ movieGenresLowerAt c x ∧ g ∉ covered)) with
      | some g =>
        obtain ⟨t, ht, hsub⟩ := ih (covered ++ [g]) (seeds ++ [x])
        exact ⟨x :: t, by simp [ht], hsub.cons₂ x⟩
      | none =>
        obtain ⟨t, ht, hsub⟩ := ih covered seeds
        exact ⟨t, ht, hsub.cons x⟩

lemma coverageFill_spec (seed_set : List ℕ) (k : ℕ) (l acc : List ℕ) :
    ∃ t, coverageFill seed_set k acc l = acc ++ t ∧ t.Sublist l ∧
      ∀ i ∈ t, i ∉ seed_set := by
  induction l generalizing acc with
  | nil => exact ⟨[], by simp [coverageFill], by simp, by simp⟩
  | cons x rest ih =>
    rw [coverageFill]
    by_cases hk : k ≤ acc.length
    · exact ⟨[], by simp [hk], by simp, by simp⟩
    · simp only [hk, if_false]
      by_cases hx : x ∈ seed_set
      · obtain ⟨t, ht, hsub, hns⟩ := ih acc
        exact ⟨t, by simp [hx, ht], hsub.cons x, hns⟩
      · obtain ⟨t, ht, hsub, hns⟩ := ih (acc ++ [x])
        refine ⟨x :: t, ?_, hsub.cons₂ x, ?_⟩
        · simp [hx, ht]
        · intro i hi
          rcases hi with _ | hi
          · exact hx
          · exact hns i (by assumption)

lemma mem_ensure_genre_coverage {c : Catalog} {ranked : List ℕ}
    {pg : List String} {k : ℕ} {i : ℕ}
    (h : i ∈ ensure_genre_coverage c ranked pg k) : i ∈ ranked := by
  unfold ensure_genre_coverage at h
  by_cases hpg : pg = []
  · rw [if_pos hpg] at h
    exact List.mem_of_mem_take h
  · rw [if_neg hpg] at h
    dsimp only at h
    obtain ⟨t0, ht0, hsub0⟩ :=
      coverageSeeds_spec c (pg.map String.toLower) ranked [] []
    obtain ⟨t, ht, hsub, _⟩ :=
      coverageFill_spec (coverageSeeds c (pg.map String.toLower) [] [] ranked).2 k ranked
        (coverageSeeds c (pg.map String.toLower) [] [] ranked).2
    rw [ht] at h
    have h' := List.mem_of_mem_take h
    rcases List.mem_append.mp h' with h'' | h''
    · rw [ht0] at h''
      exact hsub0.mem (by simpa using h'')
    · exact hsub.mem h''

lemma ensure_genre_coverage_nodup {c : Catalog} {ranked : List ℕ}
    {pg : List String} {k : ℕ}
    (hr : ranked.Nodup) : (ensure_genre_coverage c ranked pg k).Nodup := by
  unfold ensure_genre_coverage
  by_cases hpg : pg = []
  · rw [if_pos hpg]
    exact hr.sublist (List.take_sublist k ranked)
  · rw [if_neg hpg]
    dsimp only
    obtain ⟨t0, ht0, hsub0⟩ :=
      coverageSeeds_spec c (pg.map String.toLower) ranked [] []
    obtain ⟨t, ht, hsub, hns⟩ :=
      coverageFill_spec (coverageSeeds c (pg.map String.toLower) [] [] ranked).2 k ranked
        (coverageSeeds c (pg.map String.toLower) [] [] ranked).2
    rw [ht]
    refine List.Nodup.sublist (List.take_sublist k _) ?_
    have hseeds : (coverageSeeds c (pg.map String.toLower) [] [] ranked).2 = t0 := by
      simpa using ht0
    rw [hseeds]
    refine List.Nodup.append (hr.sublist hsub0) (hr.sublist hsub) ?_
    intro a ha hat
    exact hns a hat (by rwa [hseeds])

lemma diversifyGo_spec (c : Catalog) (pgl : List String) (mpg k : ℕ)
    (l : List ℕ) (counts : String → ℕ) (acc : List ℕ) :
    ∃ t, diversifyGo c pgl mpg k counts acc l = acc ++ t ∧ t.Sublist l := by
  induction l generalizing counts acc with
  | nil => exact ⟨[], by simp [diversifyGo], by simp⟩
  | cons x rest ih =>
    rw [diversifyGo]
    by_cases hk : k ≤ acc.length
    · exact ⟨[], by simp [hk], by simp⟩
    · simp only [hk, if_false]
      cases hp : primaryGenreAt c pgl x with
      | none =>
        obtain ⟨t, ht, hsub⟩ := ih counts acc
        exact ⟨t, ht, hsub.cons x⟩
      | some g =>
        by_cases hc : counts g < mpg
        · obtain ⟨t, ht, hsub⟩ :=
            ih (fun y => if y = g then counts g + 1 else counts y) (acc ++ [x])
          refine ⟨x :: t, ?_, hsub.cons₂ x⟩
          simp [hc, ht]
        · obtain ⟨t, ht, hsub⟩ := ih counts acc
          refine ⟨t, ?_, hsub.cons x⟩
          simp [hc, ht]

lemma diversifyGo_length_le (c : Catalog) (pgl : List String) (mpg k : ℕ)
    (l : List ℕ) (counts : String → ℕ) (acc : List ℕ) (hacc : acc.length ≤ k) :
    (diversifyGo c pgl mpg k counts acc l).length ≤ k := by
  induction l generalizing counts acc with
  | nil => simpa [diversifyGo] using hacc
  | cons x rest ih =>
    rw [diversifyGo]
    by_cases hk : k ≤ acc.length
    · simpa [hk] using hacc
    · simp only [hk, if_false]
      cases hp : primaryGenreAt c pgl x with
      | none => exact ih counts acc hacc
      | some g =>
        by_cases hc : counts g < mpg
        · simp only [hc, if_true]
          refine ih _ (acc ++ [x]) ?_
          have : acc.length < k := lt_of_not_le hk
          simpa using this
        · simp only [hc, if_false]
          exact ih counts acc hacc

lemma countPrimary_append (c : Catalog) (pgl : List String) (l₁ l₂ : List ℕ) (g : String) :
    countPrimary c pgl (l₁ ++ l₂) g = countPrimary c pgl l₁ g + countPrimary c pgl l₂ g := by
  simp [countPrimary, List.filter_append]

lemma diversifyGo_cap (c : Catalog) (pgl : List String) (mpg k : ℕ)
    (l : List ℕ) (counts : String → ℕ) (acc : List ℕ) (g : String)
    (hacc : countPrimary c pgl acc g = counts g) (hle : counts g ≤ mpg) :
    countPrimary c pgl (diversifyGo c pgl mpg k counts acc l) g ≤ mpg := by
  induction l generalizing counts acc with
  | nil => rw [diversifyGo]; omega
  | cons x rest ih =>
    rw [diversifyGo]
    by_cases hk : k ≤ acc.length
    · simp only [hk, if_true]; omega
    · simp only [hk, if_false]
      cases hp : primaryGenreAt c pgl x with
      | none => exact ih counts acc hacc hle
      | some g0 =>
        by_cases hc : counts g0 < mpg
        · simp only [hc, if_true]
          have hsingle : countPrimary c pgl [x] g = if g = g0 then 1 else 0 := by
            by_cases hgg : g = g0
            · subst hgg; simp [countPrimary, hp]
            · simp [countPrimary, hp, Option.some.injEq, Ne.symm hgg, hgg]
          refine ih _ (acc ++ [x]) ?_ ?_
          · rw [countPrimary_append, hsingle]
            by_cases hgg : g = g0
            · subst hgg; simp [hacc]
            · simp [hgg, hacc, Ne.symm hgg]
          · by_cases hgg : g = g0
            · subst hgg; simpa using hc
            · simpa [hgg] using hle
        · simp only [hc, if_false]
          exact ih counts acc hacc hle

lemma diversify_by_genre_cap (c : Catalog) (ranked : List ℕ) (pg : List String)
    (k mpg : ℕ) (g : String) :
    countPrimary c (pg.map String.toLower) (diversify_by_genre c ranked pg k mpg) g ≤ mpg :=
  diversifyGo_cap c (pg.map String.toLower) mpg k ranked (fun _ => 0) [] g
    (by simp [countPrimary]) (Nat.zero_le _)

lemma candidatePass_excludes {c : Catalog} {prefs : UserPreferences} {mode : String}
    {fg fs fy fr : Option String} {idx : ℕ}
    (h : candidatePass c prefs mode fg fs fy fr idx = true) :
    (movieAt c idx).movieId ∉ prefs.not_interested_ids ∧
    (movieAt c idx).movieId ∉ prefs.liked_movie_ids ∧
    (movieAt c idx).movieId ∉ prefs.disliked_movie_ids := by
  refine ⟨fun hm => ?_, fun hm => ?_, fun hm => ?_⟩ <;>
    simp [candidatePass, hm] at h

lemma mem_filteredCandidates {c : Catalog} {rawSims : List PyFloat} {rngState : ℕ}
    {prefs : UserPreferences} {top_k : ℕ} {mode : String}
    {fg fs fy fr : Option String} {idx : ℕ}
    (h : idx ∈ filteredCandidates c rawSims rngState prefs top_k mode fg fs fy fr) :
    candidatePass c prefs mode fg fs fy fr idx = true ∧
      idx < (combinedOf c rawSims rngState prefs mode).length := by
  unfold filteredCandidates at h
  dsimp only at h
  have h2 := mem_collectCandidates_nil_acc h
  refine ⟨h2.2, ?_⟩
  have := mem_argsortDescend_lt (List.mem_of_mem_take h2.1)
  simpa using this

lemma combinedOf_length_le (c : Catalog) (rawSims : List PyFloat) (rngState : ℕ)
    (prefs : UserPreferences) (mode : String) :
    (combinedOf c rawSims rngState prefs mode).length ≤ c.movies_meta.length := by
  unfold combinedOf combinedScores
  dsimp only
  simp only [List.length_zipWith, List.length_zip, List.length_map]
  omega

lemma mem_coveredCandidates {c : Catalog} {rawSims : List PyFloat} {rngState : ℕ}
    {prefs : UserPreferences} {top_k : ℕ} {mode : String}
    {fg fs fy fr : Option String} {idx : ℕ}
    (h : idx ∈ coveredCandidates c rawSims rngState prefs top_k mode fg fs fy fr) :
    idx ∈ filteredCandidates c rawSims rngState prefs top_k mode fg fs fy fr := by
  unfold coveredCandidates at h
  dsimp only at h
  by_cases hcond : prefs.preferred_genres ≠ [] ∧
      top_k < (filteredCandidates c rawSims rngState prefs top_k mode fg fs fy fr).length
  · rw [if_pos hcond] at h
    exact mem_ensure_genre_coverage h
  · rw [if_neg hcond] at h
    exact List.mem_of_mem_take h

lemma mem_finalIndices {c : Catalog} {rawSims : List PyFloat} {rngState : ℕ}
    {prefs : UserPreferences} {top_k : ℕ} {mode : String}
    {fg fs fy fr : Option String} {idx : ℕ}
    (h : idx ∈ finalIndices c rawSims rngState prefs top_k mode fg fs fy fr) :
    idx ∈ coveredCandidates c rawSims rngState prefs top_k mode fg fs fy fr := by
  unfold finalIndices at h
  dsimp only at h
  by_cases hcond : prefs.preferred_genres ≠ [] ∧
      top_k < (coveredCandidates c rawSims rngState prefs top_k mode fg fs fy fr).length
  · rw [if_pos hcond] at h
    unfold diversify_by_genre at h
    obtain ⟨t, ht, hsub⟩ := diversifyGo_spec c (prefs.preferred_genres.map String.toLower)
      (max 3 (top_k / 2)) top_k
      (coveredCandidates c rawSims rngState prefs top_k mode fg fs fy fr) (fun _ => 0) []
    rw [ht] at h
    exact hsub.mem (by simpa using h)
  · rw [if_neg hcond] at h
    exact List.mem_of_mem_take h

/-- Claim C1: no recommendation returned by `recommend` carries a movie
id belonging to the not-interested, liked or disliked lists — the
exclusion checks of the candidate filter are never relaxed by any later
stage. -/
theorem recommend_respects_exclusions (c : Catalog) (rawSims : List PyFloat)
    (rngState : ℕ) (prefs : UserPreferences) (top_k : ℕ) (mode : String)
    (fg fs fy fr : Option String) (r : RecFinal)
    (hr : r ∈ recommend c rawSims rngState prefs top_k mode fg fs fy fr) :
    r.movie_id ∉ prefs.not_interested_ids ∧ r.movie_id ∉ prefs.liked_movie_ids ∧
      r.movie_id ∉ prefs.disliked_movie_ids := by
  unfold recommend recommendRecords at hr
  rw [List.map_map] at hr
  obtain ⟨idx, hidx, rfl⟩ := List.mem_map.mp hr
  have hpass := (mem_filteredCandidates (mem_coveredCandidates (mem_finalIndices hidx))).1
  have h3 := candidatePass_excludes hpass
  simpa [Function.comp, sanitize_record, buildRecord] using h3

/-- Claim C2: every record built by `recommend` carries a finite score —
a non-finite combined score is replaced by 0.0 when the record is built —
and after the final `sanitize_for_json` pass the emitted score is null
or a finite float, never NaN or an infinity. -/
theorem recommend_scores_finite (c : Catalog) (rawSims : List PyFloat)
    (rngState : ℕ) (prefs : UserPreferences) (top_k : ℕ) (mode : String)
    (fg fs fy fr : Option String) :
    (∀ r ∈ recommendRecords c rawSims rngState prefs top_k mode fg fs fy fr,
      r.score.isFinite = true) ∧
    (∀ r ∈ recommend c rawSims rngState prefs top_k mode fg fs fy fr,
      r.score = none ∨ ∃ q, r.score = some (PyFloat.finite q)) := by
  have h1 : ∀ r ∈ recommendRecords c rawSims rngState prefs top_k mode fg fs fy fr,
      r.score.isFinite = true := by
    intro r hr
    unfold recommendRecords at hr
    obtain ⟨idx, _, rfl⟩ := List.mem_map.mp hr
    have hsc : (buildRecord c prefs (combinedOf c rawSims rngState prefs mode) idx).score
        = (if ((combinedOf c rawSims rngState prefs mode).getD idx .nan).isFinite
           then (combinedOf c rawSims rngState prefs mode).getD idx .nan
           else .finite 0) := rfl
    rw [hsc]
    by_cases hf :
        ((combinedOf c rawSims rngState prefs mode).getD idx PyFloat.nan).isFinite = true
    · rw [if_pos hf]; exact hf
    · rw [if_neg hf]; rfl
  refine ⟨h1, fun r hr => ?_⟩
  unfold recommend at hr
  obtain ⟨r0, hr0, rfl⟩ := List.mem_map.mp hr
  have hfin := h1 r0 hr0
  obtain ⟨q, hq⟩ := isFinite_iff.mp hfin
  exact Or.inr ⟨q, by simp [sanitize_record, sanitizeFloat, hfin, hq, PyFloat.isFinite]⟩

lemma filteredCandidates_nodup (c : Catalog) (rawSims : List PyFloat) (rngState : ℕ)
    (prefs : UserPreferences) (top_k : ℕ) (mode : String) (fg fs fy fr : Option String) :
    (filteredCandidates c rawSims rngState prefs top_k mode fg fs fy fr).Nodup := by
  unfold filteredCandidates
  dsimp only
  exact collectCandidates_nil_acc_nodup
    ((argsortDescend_nodup _).sublist (List.take_sublist _ _))

lemma coveredCandidates_nodup (c : Catalog) (rawSims : List PyFloat) (rngState : ℕ)
    (prefs : UserPreferences) (top_k : ℕ) (mode : String) (fg fs fy fr : Option String) :
    (coveredCandidates c rawSims rngState prefs top_k mode fg fs fy fr).Nodup := by
  unfold coveredCandidates
  dsimp only
  by_cases hcond : prefs.preferred_genres ≠ [] ∧
      top_k < (filteredCandidates c rawSims rngState prefs top_k mode fg fs fy fr).length
  · rw [if_pos hcond]
    exact ensure_genre_coverage_nodup
      (filteredCandidates_nodup c rawSims rngState prefs top_k mode fg fs fy fr)
  · rw [if_neg hcond]
    exact (filteredCandidates_nodup c rawSims rngState prefs top_k mode fg fs fy fr).sublist
      (List.take_sublist _ _)

lemma finalIndices_nodup (c : Catalog) (rawSims : List PyFloat) (rngState : ℕ)
    (prefs : UserPreferences) (top_k : ℕ) (mode : String) (fg fs fy fr : Option String) :
    (finalIndices c rawSims rngState prefs top_k mode fg fs fy fr).Nodup := by
  unfold finalIndices
  dsimp only
  by_cases hcond : prefs.preferred_genres ≠ [] ∧
      top_k < (coveredCandidates c rawSims rngState prefs top_k mode fg fs fy fr).length
  · rw [if_pos hcond]
    unfold diversify_by_genre
    obtain ⟨t, ht, hsub⟩ := diversifyGo_spec c (prefs.preferred_genres.map String.toLower)
      (max 3 (top_k / 2)) top_k
      (coveredCandidates c rawSims rngState prefs top_k mode fg fs fy fr) (fun _ => 0) []
    rw [ht]
    simpa using
      (coveredCandidates_nodup c rawSims rngState prefs top_k mode fg fs fy fr).sublist hsub
  · rw [if_neg hcond]
    exact (coveredCandidates_nodup c rawSims rngState prefs top_k mode fg fs fy fr).sublist
      (List.take_sublist _ _)

lemma finalIndices_length_le (c : Catalog) (rawSims : List PyFloat) (rngState : ℕ)
    (prefs : UserPreferences) (top_k : ℕ) (mode : String) (fg fs fy fr : Option String) :
    (finalIndices c rawSims rngState prefs top_k mode fg fs fy fr).length ≤ top_k := by
  unfold finalIndices
  dsimp only
  by_cases hcond : prefs.preferred_genres ≠ [] ∧
      top_k < (coveredCandidates c rawSims rngState prefs top_k mode fg fs fy fr).length
  · rw [if_pos hcond]
    unfold diversify_by_genre
    exact diversifyGo_length_le _ _ _ _ _ _ _ (by simp)
  · rw [if_neg hcond]
    simp [List.length_take_le]

lemma mem_finalIndices_lt {c : Catalog} {rawSims : List PyFloat} {rngState : ℕ}
    {prefs : UserPreferences} {top_k : ℕ} {mode : String}
    {fg fs fy fr : Option String} {idx : ℕ}
    (h : idx ∈ finalIndices c rawSims rngState prefs top_k mode fg fs fy fr) :
    idx < c.movies_meta.length :=
  lt_of_lt_of_le (mem_filteredCandidates (mem_coveredCandidates (mem_finalIndices h))).2
    (combinedOf_length_le c rawSims rngState prefs mode)

/-- Claim C10: for every catalog whose movie ids are pairwise distinct,
the list returned by `recommend` contains no duplicate movie ids and has
length at most top k. -/
theorem recommend_nodup_and_bounded (c : Catalog) (rawSims : List PyFloat) (rngState : ℕ)
    (prefs : UserPreferences) (top_k : ℕ) (mode : String) (fg fs fy fr : Option String)
    (hids : (c.movies_meta.map Movie.movieId).Nodup) :
    ((recommend c rawSims rngState prefs top_k mode fg fs fy fr).map
      RecFinal.movie_id).Nodup ∧
    (recommend c rawSims rngState prefs top_k mode fg fs fy fr).length ≤ top_k := by
  constructor
  · unfold recommend recommendRecords
    rw [List.map_map, List.map_map]
    refine List.Nodup.map_on ?_
      (finalIndices_nodup c rawSims rngState prefs top_k mode fg fs fy fr)
    intro x hx y hy heq
    have hxn : x < c.movies_meta.length := mem_finalIndices_lt hx
    have hyn : y < c.movies_meta.length := mem_finalIndices_lt hy
    have hxn' : x < (c.movies_meta.map Movie.movieId).length := by simpa using hxn
    have hyn' : y < (c.movies_meta.map Movie.movieId).length := by simpa using hyn
    have heq' : (movieAt c x).movieId = (movieAt c y).movieId := heq
    have ex : (movieAt c x).movieId = (c.movies_meta.map Movie.movieId)[x] := by
      unfold movieAt
      rw [List.getD_eq_getElem c.movies_meta defaultMovie hxn]
      simp
    have ey : (movieAt c y).movieId = (c.movies_meta.map Movie.movieId)[y] := by
      unfold movieAt
      rw [List.getD_eq_getElem c.movies_meta defaultMovie hyn]
      simp
    rw [ex, ey] at heq'
    exact hids.getElem_inj_iff.mp heq'
  · unfold recommend recommendRecords
    simp only [List.length_map]
    exact finalIndices_length_le c rawSims rngState prefs top_k mode fg fs fy fr

/-- Claim C9, amended: the half-cap holds at the diversification stage —
whenever the preferred genres are nonempty and more than top k
candidates survive the coverage stage (the condition under which
`recommend` runs `diversify_by_genre`), no genre is the primary genre of
more than `max 3 (top_k / 2)` of the final indices, which for k at
least 6 is within the claimed bound of half the list rounded up.  When
at most top k candidates survive, `recommend` skips diversification and
the cap can be exceeded, and the cap counts each item once by primary
genre rather than by genre-set membership. -/
theorem recommend_genre_cap_amended (c : Catalog) (rawSims : List PyFloat) (rngState : ℕ)
    (prefs : UserPreferences) (top_k : ℕ) (mode : String) (fg fs fy fr : Option String)
    (g : String) (h6 : 6 ≤ top_k) (hpg : prefs.preferred_genres ≠ [])
    (hlen : top_k <
      (coveredCandidates c rawSims rngState prefs top_k mode fg fs fy fr).length) :
    countPrimary c (prefs.preferred_genres.map String.toLower)
      (finalIndices c rawSims rngState prefs top_k mode fg fs fy fr) g
      ≤ (top_k + 1) / 2 := by
  unfold finalIndices
  dsimp only
  rw [if_pos ⟨hpg, hlen⟩]
  refine le_trans (diversify_by_genre_cap c _ prefs.preferred_genres top_k _ g) ?_
  omega

/-- Claim C9, counterexample: with nonempty preferred genres and
k = 6, `recommend` on a six-movie single-genre catalog returns six
items all carrying the genre Action, so one genre accounts for 6
items, exceeding the claimed bound of half the list rounded up (3);
when at most top k candidates survive the coverage stage,
diversification is skipped entirely. -/
theorem recommend_genre_cap_counterexample :
    cx9Prefs.preferred_genres ≠ [] ∧
    ((recommend cx9Catalog cx9Sims 0 cx9Prefs 6 "because_liked"
        none none none none).filter
      (fun r => decide ("Action" ∈ r.genres))).length = 6 ∧
    ¬ ((recommend cx9Catalog cx9Sims 0 cx9Prefs 6 "because_liked"
        none none none none).filter
      (fun r => decide ("Action" ∈ r.genres))).length ≤ (6 + 1) / 2 := by
  refine ⟨by decide, by decide!, by decide!⟩

/-- Witness for the amended diversification claim on the seven-movie
catalog, where more than top k candidates survive coverage and the
diversification branch runs. -/
theorem recommend_genre_cap_amended_witness :
    countPrimary cx9bCatalog (cx9Prefs.preferred_genres.map String.toLower)
      (finalIndices cx9bCatalog cx9bSims 0 cx9Prefs 6 "because_liked" none none none none)
      "action" ≤ (6 + 1) / 2 :=
  recommend_genre_cap_amended cx9bCatalog cx9bSims 0 cx9Prefs 6 "because_liked"
    none none none none "action" (by norm_num) (by decide) (by decide!)

/-- Claim C7, amended: a genre, service, year or runtime mode request
whose mode parameter is missing is not rejected — the candidate filter
degenerates to the always-on exclusion checks, identical to the filter
of the parameterless `because_liked` mode, so `recommend` silently
proceeds without the mode hard filter (no usage error exists in the
pipeline for a missing mode parameter; only an unknown mode name is
rejected, by the enum validation of the HTTP layer). -/
theorem mode_param_missing_silently_proceeds (c : Catalog) (prefs : UserPreferences)
    (idx : ℕ) :
    (candidatePass c prefs "genre" none none none none idx
      = candidatePass c prefs "because_liked" none none none none idx) ∧
    (candidatePass c prefs "service" none none none none idx
      = candidatePass c prefs "because_liked" none none none none idx) ∧
    (candidatePass c prefs "year" none none none none idx
      = candidatePass c prefs "because_liked" none none none none idx) ∧
    (candidatePass c prefs "runtime" none none none none idx
      = candidatePass c prefs "because_liked" none none none none idx) := by
  refine ⟨?_, ?_, ?_, ?_⟩ <;> simp [candidatePass, strTruthy]

/-- Claim C7, counterexample: a genre-mode request without its genre
parameter is not reported as an error — on the three-movie catalog with
default preferences `recommend` returns an ordinary full-length list,
identical to the output of the parameterless service mode, silently
skipping the hard filter. -/
theorem mode_param_missing_counterexample :
    (recommend witCatalog cxSims 0 {} 2 "genre" none none none none).length = 2 ∧
    recommend witCatalog cxSims 0 {} 2 "genre" none none none none
      = recommend witCatalog cxSims 0 {} 2 "service" none none none none := by
  constructor
  · decide!
  · decide!

/-- Witness for the exclusion claim: the first record of a concrete
call whose preferences exclude ids 2 and 3 carries none of the
excluded ids. -/
theorem recommend_respects_exclusions_witness :
    ((recommend witCatalog cxSims 0 wit1Prefs 2 "because_liked" none none none none).getD 0
        blankRecFinal).movie_id ∉ wit1Prefs.not_interested_ids ∧
    ((recommend witCatalog cxSims 0 wit1Prefs 2 "because_liked" none none none none).getD 0
        blankRecFinal).movie_id ∉ wit1Prefs.liked_movie_ids ∧
    ((recommend witCatalog cxSims 0 wit1Prefs 2 "because_liked" none none none none).getD 0
        blankRecFinal).movie_id ∉ wit1Prefs.disliked_movie_ids :=
  recommend_respects_exclusions witCatalog cxSims 0 wit1Prefs 2 "because_liked"
    none none none none _ (by decide!)

/-- Witness for the finite-score claim: the first record of a concrete
trending-mode call has a finite pre-sanitization score and a non-null
finite emitted score. -/
theorem recommend_scores_finite_witness :
    ((recommendRecords witCatalog cxSims 0 witPrefs 2 "trending" none none none none).getD 0
        blankRecOut).score.isFinite = true ∧
    (((recommend witCatalog cxSims 0 witPrefs 2 "trending" none none none none).getD 0
        blankRecFinal).score = none ∨
      ∃ q, ((recommend witCatalog cxSims 0 witPrefs 2 "trending" none none none none).getD 0
        blankRecFinal).score = some (PyFloat.finite q)) :=
  ⟨(recommend_scores_finite witCatalog cxSims 0 witPrefs 2 "trending"
      none none none none).1 _ (by decide!),
   (recommend_scores_finite witCatalog cxSims 0 witPrefs 2 "trending"
      none none none none).2 _ (by decide!)⟩

/-- Witness for the no-duplicates claim on the concrete three-movie
catalog, whose ids are pairwise distinct. -/
theorem recommend_nodup_and_bounded_witness :
    ((recommend witCatalog cxSims 0 witPrefs 2 "because_liked" none none none none).map
      RecFinal.movie_id).Nodup ∧
    (recommend witCatalog cxSims 0 witPrefs 2 "because_liked"
      none none none none).length ≤ 2 :=
  recommend_nodup_and_bounded witCatalog cxSims 0 witPrefs 2 "because_liked"
    none none none none (by decide)

end CineMatch
